import Mathlib

/-!
Shallow embedding of the Legal-Doc-Analyzer repository.

Query Service (src/flask_server/app.py): the /contracts handler
`getContractResponse`, the sentiment helper `getContractAnalysis`, and the
stored-Q&A handler `get_response`. External collaborators (the QA inference
routine `run_prediction`, the TextBlob polarity classifier, the pdfplumber
page extraction) are modelled as inputs: the handler receives the top
answer the collaborator would return, the top-n candidate list the
collaborator would persist to nbest.json, the polarity function, and the
outcome of PDF parsing. Effect records track which collaborators and files
the handler actually touched.

Interactive Assistant (src/main.py): session state (document text plus
conversation transcript), the summary-button handler and the chat-input
handler, with a reachability relation over the session's events.
-/

namespace LegalDoc

/-- A candidate persisted by the inference collaborator in nbest.json:
`data['0'][i]` has a `text` and a `probability`. -/
structure NCand where
  text : String
  probability : Rat
deriving DecidableEq, Repr

/-- One element of the JSON array returned by the /contracts handler:
`{"answer": ..., "probability": ..., "analyse": ...}`. -/
structure Answer where
  answer : String
  probability : String
  analyse : String
deriving DecidableEq, Repr

/-- Possible outcomes of the /contracts handler.  `inputErrorNoFile` is the
400 "No file uploaded" response, `documentReadError` the 500
`{"error": "Error reading PDF", "details": ...}` response,
`inputErrorNeedBoth` the 400 "Need both PDF and question" response,
`crash` the unhandled IndexError when nbest.json holds fewer than 5
candidates, and `answersResp` the 200 JSON array. -/
inductive CResult where
  | inputErrorNoFile : CResult
  | documentReadError (details : String) : CResult
  | inputErrorNeedBoth : CResult
  | crash : CResult
  | answersResp (answers : List Answer) : CResult
deriving DecidableEq, Repr

/-- Which external touchpoints the /contracts handler exercised:
whether `run_prediction` was invoked and whether nbest.json was read. -/
structure CEffects where
  predictionCalled : Bool
  nbestRead : Bool
deriving DecidableEq, Repr

/-- The page loop of the /contracts handler: `txt = page.extract_text()`
(None or a string) and `if txt: pdf_text += txt + "\n"`; a falsy page
(None or empty string) contributes nothing. -/
def extractPdfPages (pages : List (Option String)) : String :=
  pages.foldl (fun acc txt =>
    match txt with
    | some t => if t = "" then acc else acc ++ t ++ "\n"
    | none => acc) ""

/-- Python `.strip()`: drop whitespace from both ends. -/
def pyStrip (s : String) : String :=
  ⟨((s.data.dropWhile Char.isWhitespace).reverse.dropWhile Char.isWhitespace).reverse⟩

/-- Python `round(p * 100, 1)` expressed in tenths: the integer nearest to
`p * 1000`, ties to even (banker's rounding, as Python `round`).  Working
on `p.num` and `p.den` keeps the definition kernel-computable. -/
def roundTenths (p : Rat) : Int :=
  let num := p.num * 1000
  let den : Int := (p.den : Int)
  let f := Int.ediv num den
  let r := Int.emod num den
  if 2 * r < den then f
  else if 2 * r > den then f + 1
  else if Int.emod f 2 = 0 then f else f + 1

/-- The probability formatting `f"{round(p * 100, 1)}%"`: the value times
100, rounded to one decimal place, printed with exactly one decimal digit
and a `%` suffix (probabilities are nonnegative, so no sign handling). -/
def formatPercent (p : Rat) : String :=
  let n := roundTenths p
  toString (Int.ediv n 10) ++ "." ++ toString (Int.emod n 10) ++ "%"

/-- `getContractAnalysis` with an effect flag: the second component
records whether the TextBlob polarity classifier was consulted.  The
empty string short-circuits to the sentinel before any polarity call. -/
def getContractAnalysisT (pol : String → Rat) (selected_response : String) :
    String × Bool :=
  if selected_response = "" then ("No answer found in document", false)
  else
    let polarity := pol selected_response
    (if polarity > 0 then "Positive"
     else if polarity < 0 then "Negative"
     else "Neutral", true)

/-- `getContractAnalysis` from app.py, with the polarity classifier passed
in as a function. -/
def getContractAnalysis (pol : String → Rat) (selected_response : String) : String :=
  (getContractAnalysisT pol selected_response).1

/-- One entry of the answers list built in the else-branch of the
/contracts handler: answer text, formatted probability, and sentiment. -/
def mkAnswer (pol : String → Rat) (c : NCand) : Answer :=
  ⟨c.text, formatPercent c.probability, getContractAnalysis pol c.text⟩

/-- The /contracts handler `getContractResponse`.  `fileInput` is `none`
when no file field is present, `some (Except.error e)` when pdfplumber
throws with message `e`, and `some (Except.ok pages)` when parsing yields
the given per-page extraction results.  `predictions` is the top answer
`predictions['0']` the inference collaborator would return, and `nbest`
the candidate list `data['0']` it would persist to nbest.json. -/
def getContractResponse (fileInput : Option (Except String (List (Option String))))
    (question : String) (predictions : String) (nbest : List NCand)
    (pol : String → Rat) : CResult × CEffects :=
  match fileInput with
  | none => (CResult.inputErrorNoFile, ⟨false, false⟩)
  | some (Except.error e) => (CResult.documentReadError e, ⟨false, false⟩)
  | some (Except.ok pages) =>
    let paragraph := pyStrip (extractPdfPages pages)
    if paragraph = "" ∨ question = "" then
      (CResult.inputErrorNeedBoth, ⟨false, false⟩)
    else if predictions = "" then
      (CResult.answersResp [⟨"No answer found in document", "", "Neutral"⟩],
       ⟨true, false⟩)
    else if nbest.length < 5 then
      (CResult.crash, ⟨true, true⟩)
    else
      (CResult.answersResp ((nbest.take 5).map (mkAnswer pol)), ⟨true, true⟩)

/-- The sentiment label as the spec words it, for comparison with the
code's `getContractAnalysis`: polarity > 0 gives Positive, < 0 gives
Negative, = 0 gives Neutral, with no special case for empty text. -/
def specPolarityLabel (p : Rat) : String :=
  if p > 0 then "Positive" else if p < 0 then "Negative" else "Neutral"

/-- One entry of responses.json: a question and its canned answer. -/
structure QAEntry where
  question : String
  answer : String
deriving DecidableEq, Repr

/-- The scan loop of the /get_response handler: first entry whose
question equals the input wins; no match yields "Response not found".
`responses` is the content of responses.json as read inside the handler. -/
def get_response : List QAEntry → String → String
  | [], _ => "Response not found"
  | e :: rest, q => if e.question = q then e.answer else get_response rest q

/-- Process-level view for the stored-Q&A endpoint: the mutable shared
resource is the responses.json file content. -/
structure ServerState where
  responsesFile : List QAEntry
deriving DecidableEq, Repr

/-- One /get_response request: the handler opens responses.json, scans the
parsed list, and leaves the file untouched.  Returns the JSON answer and
the server state after the request. -/
def handle_get_response (st : ServerState) (q : String) : String × ServerState :=
  (get_response st.responsesFile q, st)

/-- Role of a conversation turn in st.session_state.messages. -/
inductive Role where
  | user : Role
  | assistant : Role
deriving DecidableEq, Repr

/-- One entry of st.session_state.messages: `{"role": ..., "content": ...}`. -/
structure Turn where
  role : Role
  content : String
deriving DecidableEq, Repr

/-- The per-session mutable state of the Interactive Assistant:
`st.session_state.doc_text` and `st.session_state.messages`. -/
structure AState where
  docText : String
  messages : List Turn
deriving DecidableEq, Repr

/-- Session-state initialization in main.py: empty document text, empty
transcript. -/
def AInit : AState := ⟨"", []⟩

/-- PDF upload in main.py: `text = "".join(page.extract_text() + "\n" for
page in reader.pages)` followed by `st.session_state.doc_text =
text.strip()`. -/
def extractPdfMain (pages : List String) : String :=
  pyStrip (pages.foldl (fun acc t => acc ++ t ++ "\n") "")

/-- The transcript entry created by the summary button:
`{"role": "assistant", "content": f"**Document Summary:**\n{summary}"}`. -/
def summaryTurn (summary : String) : Turn :=
  ⟨Role.assistant, "**Document Summary:**\n" ++ summary⟩

/-- The summary-button handler: if the generative collaborator returned a
truthy text, the whole transcript is replaced by the single summary turn;
a falsy return leaves the transcript unchanged. -/
def summarizeStep (s : AState) (summary : String) : AState :=
  if summary = "" then s
  else { s with messages := [summaryTurn summary] }

/-- Observable effects of one chat submission: whether the "Please upload
and summarize a document first." warning was shown, and whether the
generative chat collaborator was called. -/
structure ChatEffects where
  warned : Bool
  chatCalled : Bool
deriving DecidableEq, Repr

/-- The chat-input handler of main.py.  `st.chat_input` delivers no event
for an empty submission (the walrus `if prompt := ...` is falsy).  With no
document text the input is rejected with a warning and nothing else
happens.  Otherwise the user turn is appended first, then the collaborator
is called; `aiResponse = none` models a collaborator failure (the
exception propagates, but the session-state append has already happened),
and a falsy returned text appends no assistant turn. -/
def chatStep (s : AState) (prompt : String) (aiResponse : Option String) :
    AState × ChatEffects :=
  if prompt = "" then (s, ⟨false, false⟩)
  else if s.docText = "" then (s, ⟨true, false⟩)
  else
    let s1 := { s with messages := s.messages ++ [⟨Role.user, prompt⟩] }
    match aiResponse with
    | none => (s1, ⟨false, true⟩)
    | some r =>
      if r = "" then (s1, ⟨false, true⟩)
      else ({ s1 with messages := s1.messages ++ [⟨Role.assistant, r⟩] },
            ⟨false, true⟩)

/-- The user-visible events of one Interactive Assistant session. -/
inductive Event where
  | uploadPDF (pages : List String) : Event
  | uploadImage : Event
  | summarize (summary : String) : Event
  | chat (prompt : String) (aiResponse : Option String) : Event

/-- Session-state transition for one event.  Uploading a PDF stores the
stripped concatenated page text; uploading an image stores the placeholder
"Image document uploaded"; neither touches the transcript. -/
def stepEv (s : AState) : Event → AState
  | Event.uploadPDF pages => { s with docText := extractPdfMain pages }
  | Event.uploadImage => { s with docText := "Image document uploaded" }
  | Event.summarize summary => summarizeStep s summary
  | Event.chat prompt aiResponse => (chatStep s prompt aiResponse).1

/-- Session states reachable from the fresh session by user events. -/
inductive Reachable : AState → Prop where
  | init : Reachable AInit
  | step (s : AState) (e : Event) : Reachable s → Reachable (stepEv s e)

/-- A constant polarity classifier used to instantiate witnesses. -/
def constPol : String → Rat := fun _ => 1

/-- The scan loop computes the first entry found by an in-order search. -/
theorem get_response_eq_find (responses : List QAEntry) (q : String) :
    get_response responses q =
      ((responses.find? (fun e => e.question == q)).map QAEntry.answer).getD
        "Response not found" := by
  induction responses with
  | nil => rfl
  | cons e rest ih =>
    by_cases h : e.question = q
    · simp [get_response, List.find?, h]
    · simp only [get_response, List.find?, h, if_false]
      rw [show (e.question == q) = false by simpa using h]
      exact ih

/-- C6: get_response scans the stored mapping in order and returns the
answer of the first entry whose question field equals the input exactly;
if no entry matches, it returns the literal string "Response not found". -/
theorem C6_first_match (responses : List QAEntry) (q : String) :
    get_response responses q =
      ((responses.find? (fun e => e.question == q)).map QAEntry.answer).getD
        "Response not found" :=
  get_response_eq_find responses q

/-- C5 counterexample: the /get_response handler re-reads responses.json
inside the request, so the answer for a fixed question tracks the file
content at call time; two calls of the same process with different file
contents return different answers. -/
theorem C5_counterexample :
    handle_get_response ⟨[]⟩ "a" = ("Response not found", ⟨[]⟩) ∧
    handle_get_response ⟨[⟨"a", "x"⟩]⟩ "a" = ("x", ⟨[⟨"a", "x"⟩]⟩) ∧
    (handle_get_response ⟨[]⟩ "a").1 ≠ (handle_get_response ⟨[⟨"a", "x"⟩]⟩ "a").1 := by
  refine ⟨by decide, by decide, by decide⟩

/-- C5 amended: the stored mapping is re-read from responses.json on every
/get_response call rather than loaded once at process start; the handler
never mutates the file, so for a fixed question and unchanged file
contents repeated calls return the same answer. -/
theorem C5_amended_rereads (st : ServerState) (q : String) :
    (handle_get_response st q).2 = st ∧
    (handle_get_response ((handle_get_response st q).2) q).1 =
      (handle_get_response st q).1 ∧
    (handle_get_response st q).1 =
      ((st.responsesFile.find? (fun e => e.question == q)).map QAEntry.answer).getD
        "Response not found" :=
  ⟨rfl, rfl, get_response_eq_find st.responsesFile q⟩

/-- C3: when the inference collaborator's top-ranked answer is the empty
string, the /contracts handler returns exactly the single sentinel
candidate and never reads the persisted nbest.json file. -/
theorem C3_empty_top_answer (pages : List (Option String)) (question : String)
    (nbest : List NCand) (pol : String → Rat)
    (hpar : pyStrip (extractPdfPages pages) ≠ "") (hq : question ≠ "") :
    (getContractResponse (some (Except.ok pages)) question "" nbest pol).1 =
      CResult.answersResp [⟨"No answer found in document", "", "Neutral"⟩] ∧
    (getContractResponse (some (Except.ok pages)) question "" nbest pol).2.nbestRead =
      false := by
  unfold getContractResponse
  simp [hpar, hq]

/-- C3 witness at a concrete request. -/
theorem C3_witness :
    (getContractResponse (some (Except.ok [some "contract"])) "q" "" [] constPol).1 =
      CResult.answersResp [⟨"No answer found in document", "", "Neutral"⟩] ∧
    (getContractResponse (some (Except.ok [some "contract"])) "q" "" [] constPol).2.nbestRead =
      false :=
  C3_empty_top_answer [some "contract"] "q" [] constPol (by decide) (by decide)

/-- C7: the /contracts handler produces a DocumentReadError exactly when
PDF parsing throws; the error carries the underlying exception message as
its details, and the inference collaborator is not invoked. -/
theorem C7_pdf_error_iff (fileInput : Option (Except String (List (Option String))))
    (question predictions : String) (nbest : List NCand) (pol : String → Rat) :
    (∀ e, fileInput = some (Except.error e) →
      (getContractResponse fileInput question predictions nbest pol).1 =
        CResult.documentReadError e ∧
      (getContractResponse fileInput question predictions nbest pol).2.predictionCalled =
        false) ∧
    (∀ d, (getContractResponse fileInput question predictions nbest pol).1 =
        CResult.documentReadError d → fileInput = some (Except.error d)) := by
  constructor
  · rintro e rfl
    exact ⟨rfl, rfl⟩
  · intro d h
    match fileInput with
    | none => simp [getContractResponse] at h
    | some (Except.error e) =>
      have : e = d := by simpa [getContractResponse] using h
      rw [this]
    | some (Except.ok pages) =>
      exfalso
      revert h
      unfold getContractResponse
      by_cases hc : pyStrip (extractPdfPages pages) = "" ∨ question = ""
      · simp [hc]
      · simp only [hc, if_false]
        split_ifs <;> simp

/-- C7 witness at a concrete request whose PDF parsing throws. -/
theorem C7_witness :
    (getContractResponse (some (Except.error "boom")) "q" "ans" [] constPol).1 =
      CResult.documentReadError "boom" ∧
    (getContractResponse (some (Except.error "boom")) "q" "ans" [] constPol).2.predictionCalled =
      false :=
  (C7_pdf_error_iff (some (Except.error "boom")) "q" "ans" [] constPol).1 "boom" rfl

/-- C9: a candidate whose extracted text is the empty string gets the
analyse value "No answer found in document" instead of a sentiment label,
and the polarity classifier is not consulted for it. -/
theorem C9_empty_candidate (pol : String → Rat) (c : NCand) (h : c.text = "") :
    mkAnswer pol c = ⟨"", formatPercent c.probability, "No answer found in document"⟩ ∧
    (getContractAnalysisT pol c.text).2 = false := by
  simp [mkAnswer, getContractAnalysis, getContractAnalysisT, h]

/-- C9 witness at a concrete empty-text candidate. -/
theorem C9_witness :
    mkAnswer constPol ⟨"", mkRat 1 2⟩ = ⟨"", "50.0%", "No answer found in document"⟩ ∧
    (getContractAnalysisT constPol "").2 = false := by
  have h := C9_empty_candidate constPol ⟨"", mkRat 1 2⟩ rfl
  exact ⟨h.1.trans (by decide), h.2⟩

/-- The code's sentiment helper agrees with the spec's polarity-sign label
on non-empty text and departs from it on empty text. -/
theorem getContractAnalysis_eq_spec (pol : String → Rat) (s : String) :
    getContractAnalysis pol s =
      if s = "" then "No answer found in document" else specPolarityLabel (pol s) := by
  by_cases h : s = "" <;>
    simp [getContractAnalysis, getContractAnalysisT, specPolarityLabel, h]

/-- A top-n list whose third candidate has empty extracted text. -/
def c1cexNbest : List NCand :=
  [⟨"a", mkRat 1 2⟩, ⟨"b", mkRat 1 4⟩, ⟨"", mkRat 1 8⟩,
   ⟨"d", mkRat 1 16⟩, ⟨"e", mkRat 1 32⟩]

/-- C1 counterexample: with a non-empty top answer but an empty-text
candidate among the persisted top 5, the handler's analyse field for that
candidate is "No answer found in document", which is not the polarity-sign
label the claim prescribes (the constant classifier says every text is
Positive). -/
theorem C1_counterexample :
    (getContractResponse (some (Except.ok [some "contract"])) "q" "ans"
        c1cexNbest constPol).1 =
      CResult.answersResp
        [⟨"a", "50.0%", "Positive"⟩, ⟨"b", "25.0%", "Positive"⟩,
         ⟨"", "12.5%", "No answer found in document"⟩,
         ⟨"d", "6.2%", "Positive"⟩, ⟨"e", "3.1%", "Positive"⟩] ∧
    "No answer found in document" ≠ specPolarityLabel (constPol "") ∧
    specPolarityLabel (constPol "") = "Positive" := by
  refine ⟨by decide, by decide, by decide⟩

/-- C1 amended: if the top-ranked answer is non-empty (and the persisted
top-n file holds at least the 5 candidates the collaborator contract
promises), the result is exactly 5 candidates, each probability formatted
as value*100 rounded to one decimal with a "%" suffix; a candidate with
non-empty text gets the polarity-sign label, and a candidate with empty
text gets "No answer found in document" instead. -/
theorem C1_amended (pages : List (Option String)) (question predictions : String)
    (nbest : List NCand) (pol : String → Rat)
    (hpar : pyStrip (extractPdfPages pages) ≠ "") (hq : question ≠ "")
    (hpred : predictions ≠ "") (hlen : 5 ≤ nbest.length) :
    (getContractResponse (some (Except.ok pages)) question predictions nbest pol).1 =
      CResult.answersResp ((nbest.take 5).map (fun c =>
        ⟨c.text, formatPercent c.probability,
          if c.text = "" then "No answer found in document"
          else specPolarityLabel (pol c.text)⟩)) ∧
    ((nbest.take 5).map (mkAnswer pol)).length = 5 := by
  have hfun : mkAnswer pol = fun c : NCand =>
      (⟨c.text, formatPercent c.probability,
        if c.text = "" then "No answer found in document"
        else specPolarityLabel (pol c.text)⟩ : Answer) := by
    funext c
    simp [mkAnswer, getContractAnalysis_eq_spec]
  have hnlt : ¬ nbest.length < 5 := by omega
  constructor
  · unfold getContractResponse
    simp [hpar, hq, hpred, hnlt, hfun]
  · simp only [List.length_map, List.length_take]
    omega

/-- A top-n list with 5 non-empty candidates for the C1 witness. -/
def c1wNbest : List NCand :=
  [⟨"a", mkRat 1 2⟩, ⟨"b", mkRat 1 4⟩, ⟨"c", mkRat 1 8⟩,
   ⟨"d", mkRat 1 16⟩, ⟨"e", mkRat 1 32⟩]

/-- C1 witness at a concrete request with 5 non-empty candidates. -/
theorem C1_witness :
    (getContractResponse (some (Except.ok [some "contract"])) "q" "ans"
        c1wNbest constPol).1 =
      CResult.answersResp
        [⟨"a", "50.0%", "Positive"⟩, ⟨"b", "25.0%", "Positive"⟩,
         ⟨"c", "12.5%", "Positive"⟩, ⟨"d", "6.2%", "Positive"⟩,
         ⟨"e", "3.1%", "Positive"⟩] ∧
    ((c1wNbest.take 5).map (mkAnswer constPol)).length = 5 := by
  have h := C1_amended [some "contract"] "q" "ans" c1wNbest constPol
    (by decide) (by decide) (by decide) (by decide)
  exact ⟨h.1.trans (by decide), h.2⟩

/-- C2 counterexample: a request with an empty question whose PDF parsing
throws returns the DocumentReadError (HTTP 500) response, not an
InputError, though the inference collaborator is still not invoked. -/
theorem C2_counterexample :
    (getContractResponse (some (Except.error "bad pdf")) "" "ans" [] constPol).1 =
      CResult.documentReadError "bad pdf" ∧
    (getContractResponse (some (Except.error "bad pdf")) "" "ans" [] constPol).2.predictionCalled =
      false ∧
    CResult.documentReadError "bad pdf" ≠ CResult.inputErrorNoFile ∧
    CResult.documentReadError "bad pdf" ≠ CResult.inputErrorNeedBoth := by
  refine ⟨rfl, rfl, by decide, by decide⟩

/-- C2 amended: for a missing file, an empty question, or extracted text
that is empty after trimming, the QA inference collaborator is never
invoked; the failure is an InputError (HTTP 400) whenever PDF parsing does
not throw, but parsing happens before the question check, so an empty
question combined with an unparseable PDF yields the DocumentReadError
instead. -/
theorem C2_amended (fileInput : Option (Except String (List (Option String))))
    (question predictions : String) (nbest : List NCand) (pol : String → Rat)
    (hcond : fileInput = none ∨ question = "" ∨
      ∃ pages, fileInput = some (Except.ok pages) ∧ pyStrip (extractPdfPages pages) = "") :
    (getContractResponse fileInput question predictions nbest pol).2.predictionCalled =
      false ∧
    ((∀ e, fileInput ≠ some (Except.error e)) →
      (getContractResponse fileInput question predictions nbest pol).1 =
        CResult.inputErrorNoFile ∨
      (getContractResponse fileInput question predictions nbest pol).1 =
        CResult.inputErrorNeedBoth) := by
  cases fileInput with
  | none => exact ⟨rfl, fun _ => Or.inl rfl⟩
  | some x =>
    cases x with
    | error e => exact ⟨rfl, fun h => absurd rfl (h e)⟩
    | ok pages =>
      have hif : pyStrip (extractPdfPages pages) = "" ∨ question = "" := by
        rcases hcond with h | h | ⟨p, hp, hs⟩
        · exact absurd h (by simp)
        · exact Or.inr h
        · injection hp with hp'
          injection hp' with hp''
          exact Or.inl (by rw [hp'']; exact hs)
      refine ⟨?_, fun _ => Or.inr ?_⟩ <;> (unfold getContractResponse; simp [hif])

/-- C2 witness at a concrete missing-file request. -/
theorem C2_witness :
    (getContractResponse none "q" "ans" [] constPol).2.predictionCalled = false ∧
    (getContractResponse none "q" "ans" [] constPol).1 = CResult.inputErrorNoFile := by
  have h := C2_amended none "q" "ans" [] constPol (Or.inl rfl)
  refine ⟨h.1, ?_⟩
  rcases h.2 (fun e he => Option.noConfusion he) with h' | h'
  · exact h'
  · exact absurd h' (by decide)

/-- In every reachable session state, a non-empty transcript starts either
with the summary turn or with a user turn appended by the chat handler. -/
theorem reachable_head_user_or_summary (s : AState) (h : Reachable s) :
    s.messages = [] ∨ ∃ t ts, s.messages = t :: ts ∧
      ((∃ sum, t = summaryTurn sum) ∨ t.role = Role.user) := by
  induction h with
  | init => exact Or.inl rfl
  | step s e hs ih =>
    cases e with
    | uploadPDF pages => exact ih
    | uploadImage => exact ih
    | summarize sum =>
      by_cases hsum : sum = ""
      · simpa [stepEv, summarizeStep, hsum] using ih
      · right
        exact ⟨summaryTurn sum, [], by simp [stepEv, summarizeStep, hsum],
          Or.inl ⟨sum, rfl⟩⟩
    | chat prompt resp =>
      by_cases hp : prompt = ""
      · simpa [stepEv, chatStep, hp] using ih
      by_cases hd : s.docText = ""
      · simpa [stepEv, chatStep, hp, hd] using ih
      have hmsgs : ∃ tail, (stepEv s (Event.chat prompt resp)).messages =
          s.messages ++ (⟨Role.user, prompt⟩ :: tail) := by
        cases resp with
        | none => exact ⟨[], by simp [stepEv, chatStep, hp, hd]⟩
        | some r =>
          by_cases hr : r = ""
          · exact ⟨[], by simp [stepEv, chatStep, hp, hd, hr]⟩
          · exact ⟨[⟨Role.assistant, r⟩], by simp [stepEv, chatStep, hp, hd, hr]⟩
      rcases hmsgs with ⟨tail, htail⟩
      right
      rcases ih with hnil | ⟨t, ts, hmsg, hded⟩
      · refine ⟨⟨Role.user, prompt⟩, tail, ?_, Or.inr rfl⟩
        rw [htail, hnil]
        rfl
      · refine ⟨t, ts ++ (⟨Role.user, prompt⟩ :: tail), ?_, hded⟩
        rw [htail, hmsg]
        simp

/-- The session state reached by uploading a PDF and chatting without ever
generating a summary. -/
def c4BadState : AState :=
  stepEv (stepEv AInit (Event.uploadPDF ["doc"])) (Event.chat "hi" (some "resp"))

/-- C4 counterexample: the chat guard only checks the document text, so a
session that uploads a PDF and chats without generating a summary reaches
a state whose transcript starts with a user turn, not the assistant
summary turn. -/
theorem C4_counterexample :
    Reachable c4BadState ∧
    c4BadState.messages.head?.map Turn.role = some Role.user ∧
    Role.user ≠ Role.assistant ∧
    (summaryTurn "S").role = Role.assistant := by
  refine ⟨?_, by decide, by decide, rfl⟩
  unfold c4BadState
  exact Reachable.step _ _ (Reachable.step _ _ Reachable.init)

/-- C4 amended: generating a summary with non-empty text replaces the
whole transcript with the single summary turn, and in every reachable
state a non-empty transcript starts either with the summary turn or with a
user turn; a chat submission with document text present can seed an empty
transcript with a user turn, so the first turn need not be the summary. -/
theorem C4_amended (s : AState) (h : Reachable s) (hne : s.messages ≠ []) :
    (∃ t ts, s.messages = t :: ts ∧
      ((∃ sum, t = summaryTurn sum) ∨ t.role = Role.user)) ∧
    (∀ sum, sum ≠ "" → (summarizeStep s sum).messages = [summaryTurn sum]) := by
  constructor
  · rcases reachable_head_user_or_summary s h with hnil | hcons
    · exact absurd hnil hne
    · exact hcons
  · intro sum hsum
    simp [summarizeStep, hsum]

/-- The session state reached by uploading an image and generating a
summary. -/
def c4SummaryState : AState :=
  stepEv (stepEv AInit Event.uploadImage) (Event.summarize "S")

/-- C4 witness at the concrete summarized session. -/
theorem C4_witness :
    (∃ t ts, c4SummaryState.messages = t :: ts ∧
      ((∃ sum, t = summaryTurn sum) ∨ t.role = Role.user)) ∧
    (∀ sum, sum ≠ "" → (summarizeStep c4SummaryState sum).messages = [summaryTurn sum]) :=
  C4_amended c4SummaryState
    (by unfold c4SummaryState; exact Reachable.step _ _ (Reachable.step _ _ Reachable.init))
    (by decide)

/-- C8: a chat submission made while the session document text is empty is
rejected with a warning, the chat collaborator is not called, and no turn
is appended to the transcript (the state is unchanged). -/
theorem C8_chat_guard (s : AState) (prompt : String) (resp : Option String)
    (hp : prompt ≠ "") (hd : s.docText = "") :
    chatStep s prompt resp = (s, ⟨true, false⟩) := by
  unfold chatStep
  simp [hp, hd]

/-- C8 witness at the fresh session. -/
theorem C8_witness : chatStep AInit "hi" (some "resp") = (AInit, ⟨true, false⟩) :=
  C8_chat_guard AInit "hi" (some "resp") (by decide) rfl

/-- C10: the chat handler appends the user turn before calling the chat
collaborator, so when the call fails (`none`) or returns empty text the
transcript keeps the user turn with no matching assistant turn. -/
theorem C10_user_turn_persists (s : AState) (prompt : String) (resp : Option String)
    (hp : prompt ≠ "") (hd : s.docText ≠ "") (hfail : resp = none ∨ resp = some "") :
    (chatStep s prompt resp).1.messages = s.messages ++ [⟨Role.user, prompt⟩] ∧
    (chatStep s prompt resp).2.chatCalled = true := by
  unfold chatStep
  rcases hfail with rfl | rfl <;> simp [hp, hd]

/-- C10 witness at a concrete failing chat call. -/
theorem C10_witness :
    (chatStep ⟨"doc", []⟩ "hi" none).1.messages = [⟨Role.user, "hi"⟩] ∧
    (chatStep ⟨"doc", []⟩ "hi" none).2.chatCalled = true := by
  have h := C10_user_turn_persists ⟨"doc", []⟩ "hi" none (by decide) (by decide) (Or.inl rfl)
  exact ⟨h.1.trans (by decide), h.2⟩

end LegalDoc
